import Mathlib

/-!
Verification of the request-dispatch subsystem of the algos repository
(`algosrest/client/parallel.py`): the `RequestInfo` descriptor class, the
`ProcessPool` worker-pool wrapper, and the `RequestPool` dispatcher with its
`request`, `batch_request`, `single_request` and `chunks` operations.

The Python code is shallowly embedded: pure functions become Lean functions,
external collaborators (the HTTP connection, `time.time`, `json.dumps`, the
stdlib process-pool executor) become explicit oracles or small state machines,
and raised exceptions become `Except` errors.  Machine-level details that the
claims do not touch (actual sockets, actual processes) are represented by the
observable events the code produces.
-/

/-- Failures of the underlying HTTP transport (`conn.request` / `conn.getresponse`):
connection refused, timeouts, malformed responses.  The module never catches
these; they propagate to the caller. -/
inductive TransportError where
  | connectionRefused
  | timeout
  | malformedResponse
deriving DecidableEq

/-- Python exceptions raised (or propagated) by the client module. -/
inductive PyError where
  | typeError (msg : String)
  | valueError (msg : String)
  | runtimeError (msg : String)
  | transport (e : TransportError)
deriving DecidableEq

/-- Stand-in for the `dict[str, Any]` payload of a POST request.  The client
code treats the payload opaquely: it only ever serializes it via `json.dumps`
(modelled as an explicit `dumps` oracle below) and compares it for equality. -/
abbrev Payload := List (String × String)

/-- The `RequestInfo` value: endpoint, method and optional POST data
(`parallel.py` lines 20-47). -/
structure RequestInfo where
  endpoint : String
  method : String
  data : Option Payload
deriving DecidableEq

/-- Python str.upper() as applied to HTTP method names: character-wise
uppercasing, written over the character list so that it evaluates on concrete
strings. -/
def pyUpper (s : String) : String :=
  String.mk (s.data.map Char.toUpper)

/-- RequestInfo.__init__: stores the endpoint and data as given and upper-cases
the method (`self.method = method.upper()`).  The source performs no other
computation and raises nothing. -/
def RequestInfo.init (endpoint : String) (method : String) (data : Option Payload) :
    RequestInfo :=
  { endpoint := endpoint, method := pyUpper method, data := data }

/-- Python list slicing `array[i:j]` for nonnegative bounds, as used by
`chunks` in the form `array[i:i+n]`. -/
def pySlice (xs : List α) (i j : Nat) : List α :=
  (xs.drop i).take (j - i)

/-- Indices generated by Python `range` with a positive step: `rangeAux step
start k` is `[start, start+step, ...]` of length `k`. -/
def rangeAux (step : Nat) (start : Nat) : Nat → List Nat
  | 0 => []
  | k + 1 => start :: rangeAux step (start + step) k

/-- Python `range(start, stop, step)` for `step ≥ 1`: it yields
`ceil((stop - start) / step)` indices spaced `step` apart. -/
def rangePos (start stop step : Nat) : List Nat :=
  rangeAux step start (((stop - start) + step - 1) / step)

/-- RequestPool.chunks (`parallel.py` lines 258-272): the generator body is
`for i in range(0, len(array), n): yield array[i:i+n]`.  Consuming the
generator with `n = 0` raises `ValueError` from `range`; with `n < 0`,
`range(0, len(array), n)` counts downward from 0 and is empty because
`len(array) ≥ 0`, so no chunks are yielded; with `n ≥ 1` it yields the
successive slices. -/
def RequestPool.chunks (array : List α) (n : Int) : Except PyError (List (List α)) :=
  if n = 0 then .error (.valueError "range() arg 3 must not be zero")
  else if 0 < n then
    .ok ((rangePos 0 array.length n.toNat).map (fun i => pySlice array i (i + n.toNat)))
  else
    .ok []

/-- Recursive presentation of slicing a list into chunks of size `m + 1`,
used to reason about `RequestPool.chunks` by induction. -/
def chunksRec (m : Nat) : List α → List (List α)
  | [] => []
  | x :: xs => ((x :: xs).take (m + 1)) :: chunksRec m (xs.drop m)
termination_by l => l.length
decreasing_by simp; omega

/-- Observable effects of `RequestPool.request` on the HTTP connection:
creating the connection (`http.client.HTTPConnection(hostname, port)`),
issuing one request (`conn.request(method, endpoint, [body], headers)`), and
closing it (`conn.close()`). -/
inductive NetEvent where
  | openConn (hostname : String) (port : Int)
  | issue (method : String) (endpoint : String) (body : Option String)
      (headers : List (String × String))
  | closeConn
deriving DecidableEq

/-- Recognizer for connection-creation events. -/
def NetEvent.isOpen : NetEvent → Bool
  | .openConn _ _ => true
  | _ => false

/-- Recognizer for connection-close events. -/
def NetEvent.isClose : NetEvent → Bool
  | .closeConn => true
  | _ => false

/-- Recognizer for request-issue events. -/
def NetEvent.isIssue : NetEvent → Bool
  | .issue _ _ _ _ => true
  | _ => false

/-- The header dict built once per `request` call (`parallel.py` lines 172-178)
and used for every descriptor that carries no data. -/
def baseHeaders (hostname : String) (port : Int) : List (String × String) :=
  [("Connection", "keep-alive"),
   ("Host", s!"{hostname}:{port}"),
   ("User-Agent", "algosrestclient/0.1.0"),
   ("Accept", "*/*")]

/-- The header dict built for a descriptor that carries data (`parallel.py`
lines 203-210), with `contentLength = len(json.dumps(data).encode("utf-8"))`.
The source spells the content-type key `Content-type` and gives the
`Connection` header the value `" keep-alive"`, with a leading space. -/
def postHeaders (hostname : String) (port : Int) (contentLength : Nat) :
    List (String × String) :=
  [("Content-Length", toString contentLength),
   ("Content-type", "application/json"),
   ("Host", s!"{hostname}:{port}"),
   ("User-Agent", "algosrestclient/0.1.0"),
   ("Accept", "*/*"),
   ("Connection", " keep-alive")]

/-- Value of a header in a header list (dict lookup by exact key). -/
def hdrVal (headers : List (String × String)) (key : String) : Option String :=
  (headers.find? (fun kv => kv.1 == key)).map Prod.snd

/-- Dynamically-typed Python values as far as the client module inspects them:
the `isinstance` checks in `RequestPool.request` and `RequestPool.__init__`
distinguish `RequestInfo` instances, strings, ints and lists; everything else
only matters as being none of those. -/
inductive PyObj where
  | reqInfo (r : RequestInfo)
  | pyStr (s : String)
  | pyInt (n : Int)
  | pyList (xs : List PyObj)
  | pyDict

/-- The element check `all([isinstance(x, RequestInfo) for x in req_infos])`
(`parallel.py` line 163), together with the typed view of the elements it
licenses: `some` exactly when every element is a `RequestInfo`. -/
def extractInfos : List PyObj → Option (List RequestInfo)
  | [] => some []
  | .reqInfo r :: xs => (extractInfos xs).map (fun rs => r :: rs)
  | _ :: _ => none

/-- The request loop of `RequestPool.request` (`parallel.py` lines 184-229).
External collaborators are oracles: `respond k` is the outcome of the `k`-th
`conn.request`/`conn.getresponse`/`read` round on this connection (the decoded
body text, or a transport failure, which the code does not catch); `clock i`
is the `i`-th reading of `time.time()` (the `k`-th descriptor reads indices
`2*k` at start and `2*k + 1` at end); `dumps` is `json.dumps`.  Returns the
issued events and either the accumulated `(body, end - start, endpoint)`
tuples or the first transport error, at which point the loop aborts. -/
def requestLoop (respond : Nat → Except TransportError String) (clock : Nat → Int)
    (dumps : Payload → String) (hostname : String) (port : Int) :
    Nat → List RequestInfo →
      List NetEvent × Except TransportError (List (String × Int × String))
  | _, [] => ([], .ok [])
  | k, r :: rs =>
    let ev : NetEvent :=
      match r.data with
      | none => .issue r.method r.endpoint none (baseHeaders hostname port)
      | some d => .issue r.method r.endpoint (some (dumps d))
          (postHeaders hostname port (dumps d).utf8ByteSize)
    match respond k with
    | .error e => ([ev], .error e)
    | .ok body =>
      let rest := requestLoop respond clock dumps hostname port (k + 1) rs
      (ev :: rest.1,
        rest.2.map (fun out => (body, clock (2 * k + 1) - clock (2 * k), r.endpoint) :: out))

/-- RequestPool.request (`parallel.py` lines 148-234): validates that the
input is a list of `RequestInfo`s (raising `TypeError` otherwise, before any
network traffic), opens one connection, runs the request loop over it, and
closes the connection after the loop.  `conn.close()` is a plain statement
after the `for` loop, not in a `finally` block, so it runs only when the loop
finishes without raising; a transport error propagates with the connection
left unclosed. -/
def RequestPool.request (hostname : String) (port : Int)
    (respond : Nat → Except TransportError String) (clock : Nat → Int)
    (dumps : Payload → String) (req_infos : PyObj) :
    List NetEvent × Except PyError (List (String × Int × String)) :=
  match req_infos with
  | .pyList xs =>
    match extractInfos xs with
    | none => ([], .error (.typeError "Unsupported Type for Input Elements"))
    | some infos =>
      let run := requestLoop respond clock dumps hostname port 0 infos
      match run.2 with
      | .ok out => (.openConn hostname port :: run.1 ++ [.closeConn], .ok out)
      | .error e => (.openConn hostname port :: run.1, .error (.transport e))
  | _ => ([], .error (.typeError "Unsupported Type for Input List"))

/-- State of a `concurrent.futures.ProcessPoolExecutor` as far as its contract
is observable to this module: whether `shutdown()` has been called.  Per the
stdlib contract (and the repo's own `test_shutdown` tests), `submit` and `map`
after shutdown raise `RuntimeError("cannot schedule new futures after
shutdown")`, and before shutdown a scheduled call eventually yields the
function applied to its argument. -/
structure Executor where
  isShutdown : Bool

/-- executor.submit(func, arg): rejected after shutdown, otherwise a future
whose awaited value is `func arg`. -/
def Executor.submit (ex : Executor) (func : α → β) (arg : α) : Except PyError β :=
  if ex.isShutdown then .error (.runtimeError "cannot schedule new futures after shutdown")
  else .ok (func arg)

/-- executor.map(func, iterables): rejected after shutdown, otherwise the
results of `func` on each element, in submission order. -/
def Executor.mapFn (ex : Executor) (func : α → β) (iterables : List α) :
    Except PyError (List β) :=
  if ex.isShutdown then .error (.runtimeError "cannot schedule new futures after shutdown")
  else .ok (iterables.map func)

/-- ProcessPool (`parallel.py` lines 50-111): stores the worker count and the
executor it created. -/
structure ProcessPool where
  n_workers : Int
  executor : Executor

/-- ProcessPool.__init__: creates the executor, which starts accepting work. -/
def ProcessPool.init (n_workers : Int) : ProcessPool :=
  { n_workers := n_workers, executor := { isShutdown := false } }

/-- ProcessPool.batch: delegates to `executor.map`. -/
def ProcessPool.batch (p : ProcessPool) (func : α → β) (iterables : List α) :
    Except PyError (List β) :=
  p.executor.mapFn func iterables

/-- ProcessPool.single: delegates to `executor.submit`. -/
def ProcessPool.single (p : ProcessPool) (func : α → β) (arg : α) : Except PyError β :=
  p.executor.submit func arg

/-- ProcessPool.shutdown: `self.executor.shutdown(wait=True)` — the executor
permanently stops accepting work. -/
def ProcessPool.shutdown (p : ProcessPool) : ProcessPool :=
  { p with executor := { isShutdown := true } }

/-- Resource-creation events of `RequestPool.__init__`. -/
inductive InitEvent where
  | poolCreated (n_workers : Int)
deriving DecidableEq

/-- The `RequestPool` dispatcher state: its `ProcessPool` and the connection
parameters stored by `__init__`. -/
structure RequestPool where
  pool : ProcessPool
  hostname : String
  port : Int

/-- RequestPool.__init__ (`parallel.py` lines 122-146): the very first
statement is `self.pool = ProcessPool(n_workers)`, and only then do the four
validation checks run, in source order: hostname an instance of `str`
(`TypeError`), port an instance of `int` (`TypeError`), hostname nonempty
(`ValueError`), port ≥ 1 (`ValueError`).  The returned event list records the
resources created before the constructor finishes or raises. -/
def RequestPool.init (n_workers : Int) (hostname : PyObj) (port : PyObj) :
    List InitEvent × Except PyError RequestPool :=
  let events := [InitEvent.poolCreated n_workers]
  match hostname with
  | .pyStr h =>
    match port with
    | .pyInt p =>
      if h = "" then (events, .error (.valueError "Blank hostname given"))
      else if p < 1 then (events, .error (.valueError "Invalid port number given"))
      else (events, .ok { pool := ProcessPool.init n_workers, hostname := h, port := p })
    | _ => (events, .error (.typeError "Port not given as int."))
  | _ => (events, .error (.typeError "Hostname not given as string"))

/-- RequestPool.batch_request (`parallel.py` lines 236-245): maps
`self.request` over the outer list via the pool. -/
def RequestPool.batch_request (self : RequestPool)
    (respond : Nat → Except TransportError String) (clock : Nat → Int)
    (dumps : Payload → String) (req_infos : List PyObj) :
    Except PyError (List (List NetEvent × Except PyError (List (String × Int × String)))) :=
  self.pool.batch (RequestPool.request self.hostname self.port respond clock dumps) req_infos

/-- RequestPool.single_request (`parallel.py` lines 247-256): takes one
descriptor `req_info` and submits `self.request` on the singleton list
`[req_info]`. -/
def RequestPool.single_request (self : RequestPool)
    (respond : Nat → Except TransportError String) (clock : Nat → Int)
    (dumps : Payload → String) (req_info : PyObj) :
    Except PyError (List NetEvent × Except PyError (List (String × Int × String))) :=
  self.pool.single (RequestPool.request self.hostname self.port respond clock dumps)
    (PyObj.pyList [req_info])

/-- RequestPool.shutdown: delegates to the pool. -/
def RequestPool.shutdownPool (self : RequestPool) : RequestPool :=
  { self with pool := self.pool.shutdown }

/-- A `RequestInfo` instance as a Python object.  The class defines only
`__init__` and `__repr__`, so `==` falls back to `object.__eq__`, which is
identity comparison; `oid` models the object identity (`id()`), distinct for
distinct constructions. -/
structure RequestInfoObj where
  oid : Nat
  val : RequestInfo
deriving DecidableEq

/-- Python `==` on two `RequestInfo` instances: with no `__eq__` defined on
the class, this is `object.__eq__`, i.e. identity. -/
def pyEqRequestInfo (a b : RequestInfoObj) : Bool :=
  a.oid == b.oid

lemma chunksRec_nil (m : Nat) : chunksRec m ([] : List α) = [] := by
  rw [chunksRec.eq_def]

lemma chunksRec_cons (m : Nat) (x : α) (t : List α) :
    chunksRec m (x :: t) = ((x :: t).take (m + 1)) :: chunksRec m (t.drop m) := by
  rw [chunksRec.eq_def]

lemma rangeAux_shift (step : Nat) :
    ∀ (k s d : Nat), rangeAux step (d + s) k = (rangeAux step s k).map (fun i => d + i) := by
  intro k
  induction k with
  | zero => intro s d; rfl
  | succ k ih =>
    intro s d
    simp only [rangeAux, List.map_cons]
    rw [Nat.add_assoc]
    rw [ih (s + step) d]

lemma pySlice_shift (xs : List α) (d i w : Nat) :
    pySlice xs (d + i) (d + i + w) = pySlice (xs.drop d) i (i + w) := by
  have h1 : d + i + w - (d + i) = w := by omega
  have h2 : i + w - i = w := by omega
  have h3 : i + d = d + i := Nat.add_comm i d
  simp only [pySlice, h1, h2, List.drop_drop, h3]

lemma sub_add_div_succ (T m : Nat) : (T - m + m) / (m + 1) = T / (m + 1) := by
  rcases le_or_lt m T with h | h
  · rw [Nat.sub_add_cancel h]
  · rw [Nat.sub_eq_zero_of_le (Nat.le_of_lt h), Nat.zero_add]
    rw [Nat.div_eq_of_lt (Nat.lt_succ_self m), Nat.div_eq_of_lt (Nat.lt_succ_of_lt h)]

lemma chunks_map_eq_chunksRec (m : Nat) :
    ∀ (L : Nat) (xs : List α), xs.length ≤ L →
      (rangePos 0 xs.length (m + 1)).map (fun i => pySlice xs i (i + (m + 1))) =
        chunksRec m xs := by
  intro L
  induction L with
  | zero =>
    intro xs hxs
    have hnil : xs = [] := List.eq_nil_of_length_eq_zero (Nat.le_zero.mp hxs)
    subst hnil
    unfold rangePos
    simp only [List.length_nil, Nat.zero_sub, Nat.zero_add]
    have h0 : (m + 1 - 1) / (m + 1) = 0 := by
      have h1 : m + 1 - 1 = m := by omega
      rw [h1, Nat.div_eq_of_lt (Nat.lt_succ_self m)]
    rw [h0, chunksRec_nil]
    rfl
  | succ L ih =>
    intro xs hxs
    match xs with
    | [] =>
      unfold rangePos
      simp only [List.length_nil, Nat.zero_sub, Nat.zero_add]
      have h0 : (m + 1 - 1) / (m + 1) = 0 := by
        have h1 : m + 1 - 1 = m := by omega
        rw [h1, Nat.div_eq_of_lt (Nat.lt_succ_self m)]
      rw [h0, chunksRec_nil]
      rfl
    | x :: t =>
      have hcount : ((x :: t).length - 0 + (m + 1) - 1) / (m + 1) = t.length / (m + 1) + 1 := by
        have h1 : (x :: t).length - 0 + (m + 1) - 1 = t.length + (m + 1) := by
          simp only [List.length_cons]
          omega
        rw [h1, Nat.add_div_right _ (Nat.succ_pos m)]
      unfold rangePos
      rw [hcount]
      simp only [rangeAux, List.map_cons]
      have hhead : pySlice (x :: t) 0 (0 + (m + 1)) = (x :: t).take (m + 1) := by
        simp [pySlice]
      have hlen : (t.drop m).length ≤ L := by
        simp only [List.length_drop]
        have := List.length_cons x t ▸ hxs
        omega
      have htail :
          (rangeAux (m + 1) (0 + (m + 1)) (t.length / (m + 1))).map
              (fun i => pySlice (x :: t) i (i + (m + 1))) =
            chunksRec m (t.drop m) := by
        have hsh : rangeAux (m + 1) (0 + (m + 1)) (t.length / (m + 1)) =
            rangeAux (m + 1) ((m + 1) + 0) (t.length / (m + 1)) := by
          rw [Nat.zero_add, Nat.add_zero]
        rw [hsh, rangeAux_shift (m + 1) (t.length / (m + 1)) 0 (m + 1), List.map_map]
        have hfun :
            ((fun i => pySlice (x :: t) i (i + (m + 1))) ∘ (fun i => (m + 1) + i)) =
              (fun i => pySlice ((x :: t).drop (m + 1)) i (i + (m + 1))) := by
          funext i
          exact pySlice_shift (x :: t) (m + 1) i (m + 1)
        rw [hfun]
        have hdropped : (x :: t).drop (m + 1) = t.drop m := by
          simp [List.drop_succ_cons]
        rw [hdropped]
        have hc : t.length / (m + 1) =
            (((t.drop m).length - 0) + (m + 1) - 1) / (m + 1) := by
          have h2 : ((t.drop m).length - 0) + (m + 1) - 1 = t.length - m + m := by
            simp only [List.length_drop, Nat.sub_zero]
            omega
          rw [h2, sub_add_div_succ]
        rw [hc]
        have hih := ih (t.drop m) hlen
        unfold rangePos at hih
        exact hih
      rw [hhead, htail, chunksRec_cons]

lemma chunksRec_join (m : Nat) :
    ∀ (L : Nat) (xs : List α), xs.length ≤ L → (chunksRec m xs).join = xs := by
  intro L
  induction L with
  | zero =>
    intro xs hxs
    have hnil : xs = [] := List.eq_nil_of_length_eq_zero (Nat.le_zero.mp hxs)
    subst hnil
    rw [chunksRec_nil]
    rfl
  | succ L ih =>
    intro xs hxs
    match xs with
    | [] =>
      rw [chunksRec_nil]
      rfl
    | x :: t =>
      rw [chunksRec_cons]
      have hlen : (t.drop m).length ≤ L := by
        simp only [List.length_drop]
        have := List.length_cons x t ▸ hxs
        omega
      simp only [List.join_cons, ih (t.drop m) hlen]
      have hd : t.drop m = (x :: t).drop (m + 1) := by simp [List.drop_succ_cons]
      rw [hd, List.take_append_drop]

lemma chunksRec_length (m : Nat) :
    ∀ (L : Nat) (xs : List α), xs.length ≤ L →
      (chunksRec m xs).length = (xs.length + m) / (m + 1) := by
  intro L
  induction L with
  | zero =>
    intro xs hxs
    have hnil : xs = [] := List.eq_nil_of_length_eq_zero (Nat.le_zero.mp hxs)
    subst hnil
    rw [chunksRec_nil]
    simp [Nat.div_eq_of_lt (Nat.lt_succ_self m)]
  | succ L ih =>
    intro xs hxs
    match xs with
    | [] =>
      rw [chunksRec_nil]
      simp [Nat.div_eq_of_lt (Nat.lt_succ_self m)]
    | x :: t =>
      have hlen : (t.drop m).length ≤ L := by
        simp only [List.length_drop]
        have := List.length_cons x t ▸ hxs
        omega
      rw [chunksRec_cons, List.length_cons, ih (t.drop m) hlen, List.length_drop,
        sub_add_div_succ]
      have h1 : (x :: t).length + m = t.length + (m + 1) := by
        simp only [List.length_cons]
        omega
      rw [h1, Nat.add_div_right _ (Nat.succ_pos m)]

lemma chunksRec_mem (m : Nat) :
    ∀ (L : Nat) (xs : List α), xs.length ≤ L →
      ∀ c ∈ chunksRec m xs, c.length ≤ m + 1 ∧ c ≠ [] := by
  intro L
  induction L with
  | zero =>
    intro xs hxs
    have hnil : xs = [] := List.eq_nil_of_length_eq_zero (Nat.le_zero.mp hxs)
    subst hnil
    intro c hc
    simp [chunksRec_nil] at hc
  | succ L ih =>
    intro xs hxs
    match xs with
    | [] => intro c hc; simp [chunksRec_nil] at hc
    | x :: t =>
      intro c hc
      rw [chunksRec_cons] at hc
      rcases List.mem_cons.mp hc with h | h
      · subst h
        refine ⟨List.length_take_le (m + 1) (x :: t), ?_⟩
        intro hc0
        have hlen0 := congrArg List.length hc0
        simp only [List.length_take, List.length_nil, List.length_cons] at hlen0
        omega
      · have hlen : (t.drop m).length ≤ L := by
          simp only [List.length_drop]
          have := List.length_cons x t ▸ hxs
          omega
        exact ih (t.drop m) hlen c h

lemma chunksRec_getElem_length (m : Nat) :
    ∀ (L : Nat) (xs : List α), xs.length ≤ L →
      ∀ (i : Nat), i + 1 < (chunksRec m xs).length →
        ∃ c, (chunksRec m xs)[i]? = some c ∧ c.length = m + 1 := by
  intro L
  induction L with
  | zero =>
    intro xs hxs i h
    have hnil : xs = [] := List.eq_nil_of_length_eq_zero (Nat.le_zero.mp hxs)
    subst hnil
    rw [chunksRec_nil] at h
    simp at h
  | succ L ih =>
    intro xs hxs i h
    match xs with
    | [] =>
      rw [chunksRec_nil] at h
      simp at h
    | x :: t =>
      have hlen : (t.drop m).length ≤ L := by
        simp only [List.length_drop]
        have := List.length_cons x t ▸ hxs
        omega
      match i with
      | 0 =>
        rw [chunksRec_cons] at h ⊢
        simp only [List.length_cons] at h
        have hlt : 0 < (chunksRec m (t.drop m)).length := by omega
        have hne : t.drop m ≠ [] := by
          intro hc
          rw [hc, chunksRec_nil] at hlt
          simp at hlt
        have hdl : 0 < (t.drop m).length := List.length_pos.mpr hne
        rw [List.length_drop] at hdl
        refine ⟨(x :: t).take (m + 1), ?_, ?_⟩
        · simp
        · simp only [List.length_take, List.length_cons]
          omega
      | j + 1 =>
        rw [chunksRec_cons] at h ⊢
        simp only [List.length_cons] at h
        have hj : j + 1 < (chunksRec m (t.drop m)).length := by omega
        have hres := ih (t.drop m) hlen j hj
        simpa using hres

/-- C1: for every list `xs` and every `n ≥ 1`, `RequestPool.chunks xs n`
succeeds and yields exactly `ceil(len(xs)/n)` chunks; every chunk except
possibly the last has length exactly `n`, every chunk has length at most `n`
and is nonempty, and concatenating the chunks in order reproduces `xs`. -/
theorem chunks_partition {α : Type} (xs : List α) (n : Int) (hn : 1 ≤ n) :
    ∃ cs : List (List α), RequestPool.chunks xs n = Except.ok cs ∧
      cs.length = (xs.length + n.toNat - 1) / n.toNat ∧
      cs.join = xs ∧
      (∀ (i : Nat), i + 1 < cs.length →
        ∃ c, cs[i]? = some c ∧ c.length = n.toNat) ∧
      (∀ c ∈ cs, c.length ≤ n.toNat ∧ c ≠ []) := by
  obtain ⟨m, hm⟩ : ∃ m : Nat, n.toNat = m + 1 := ⟨n.toNat - 1, by omega⟩
  have hne : ¬ n = 0 := by omega
  have hpos : 0 < n := by omega
  refine ⟨(rangePos 0 xs.length n.toNat).map (fun i => pySlice xs i (i + n.toNat)), ?_, ?_⟩
  · simp [RequestPool.chunks, hne, hpos]
  · rw [hm, chunks_map_eq_chunksRec m xs.length xs (Nat.le_refl _)]
    refine ⟨?_, chunksRec_join m xs.length xs (Nat.le_refl _), ?_, ?_⟩
    · rw [chunksRec_length m xs.length xs (Nat.le_refl _)]
      have hnum : xs.length + (m + 1) - 1 = xs.length + m := by omega
      rw [hnum]
    · exact chunksRec_getElem_length m xs.length xs (Nat.le_refl _)
    · exact chunksRec_mem m xs.length xs (Nat.le_refl _)

/-- Witness for C1 at the spec scenario `partition([a,b,c], 2) = [[a,b],[c]]`. -/
theorem chunks_partition_witness :
    (1 : Int) ≤ 2 ∧
      ∃ cs : List (List Nat), RequestPool.chunks [10, 20, 30] 2 = Except.ok cs ∧
        cs.length = (([10, 20, 30] : List Nat).length + (2 : Int).toNat - 1) / (2 : Int).toNat ∧
        cs.join = [10, 20, 30] ∧
        (∀ (i : Nat), i + 1 < cs.length →
          ∃ c, cs[i]? = some c ∧ c.length = (2 : Int).toNat) ∧
        (∀ c ∈ cs, c.length ≤ (2 : Int).toNat ∧ c ≠ []) :=
  ⟨by decide, chunks_partition [10, 20, 30] 2 (by decide)⟩

/-- C10 counterexample: `chunks` applied with the invalid chunk size `-1 ≤ 0`
does not fail; consuming the generator yields the empty list of chunks (the
negative-step `range` is empty), silently discarding the descriptor. -/
theorem chunks_negative_counterexample :
    RequestPool.chunks [RequestInfo.init "a" "GET" none] (-1) =
      Except.ok ([] : List (List RequestInfo)) := by
  rfl

/-- C10 amended: for `chunkSize ≤ 0`, only `chunkSize = 0` fails (with the
`ValueError` raised by `range` when the generator is consumed); a negative
`chunkSize` does not fail and instead yields no chunks at all. -/
theorem chunks_nonpositive (xs : List α) (n : Int) (hn : n ≤ 0) :
    RequestPool.chunks xs n =
      if n = 0 then Except.error (PyError.valueError "range() arg 3 must not be zero")
      else Except.ok [] := by
  rcases eq_or_lt_of_le hn with h | h
  · simp [RequestPool.chunks, h]
  · have hne : ¬ n = 0 := by omega
    have hpos : ¬ 0 < n := by omega
    simp [RequestPool.chunks, hne, hpos]

/-- Witness for the amended C10 at `n = -1`. -/
theorem chunks_nonpositive_witness :
    (-1 : Int) ≤ 0 ∧
      RequestPool.chunks ([10] : List Nat) (-1) =
        (if (-1 : Int) = 0
          then Except.error (PyError.valueError "range() arg 3 must not be zero")
          else Except.ok []) :=
  ⟨by decide, chunks_nonpositive [10] (-1) (by decide)⟩

lemma extractInfos_map (infos : List RequestInfo) :
    extractInfos (infos.map PyObj.reqInfo) = some infos := by
  induction infos with
  | nil => rfl
  | cons r rs ih => simp [extractInfos, ih]

lemma requestLoop_ok (respond : Nat → Except TransportError String) (clock : Nat → Int)
    (dumps : Payload → String) (hostname : String) (port : Int) :
    ∀ (infos : List RequestInfo) (k : Nat),
      (∀ j, j < infos.length → ∃ b, respond (k + j) = Except.ok b) →
      ∃ out, (requestLoop respond clock dumps hostname port k infos).2 = Except.ok out ∧
        out.length = infos.length ∧
        ∀ (j : Nat) (hj : j < infos.length), ∃ b, respond (k + j) = Except.ok b ∧
          out[j]? = some (b, clock (2 * (k + j) + 1) - clock (2 * (k + j)),
            (infos.get ⟨j, hj⟩).endpoint) := by
  intro infos
  induction infos with
  | nil =>
    intro k hok
    refine ⟨[], rfl, rfl, ?_⟩
    intro j hj
    simp at hj
  | cons r rs ih =>
    intro k hok
    obtain ⟨b, hb⟩ := hok 0 (by simp)
    have hb0 : respond k = Except.ok b := by simpa using hb
    have hok1 : ∀ j, j < rs.length → ∃ b, respond ((k + 1) + j) = Except.ok b := by
      intro j hj
      have hco := hok (j + 1) (by simp only [List.length_cons]; omega)
      have harith : k + (j + 1) = (k + 1) + j := by omega
      rw [harith] at hco
      exact hco
    obtain ⟨out, hout, hlen, hidx⟩ := ih (k + 1) hok1
    refine ⟨(b, clock (2 * k + 1) - clock (2 * k), r.endpoint) :: out, ?_, ?_, ?_⟩
    · simp only [requestLoop, hb0]
      rw [hout]
      rfl
    · simp [hlen]
    · intro j hj
      match j with
      | 0 =>
        refine ⟨b, by simpa using hb, ?_⟩
        simp
      | j' + 1 =>
        have hj' : j' < rs.length := by
          simp only [List.length_cons] at hj
          omega
        obtain ⟨b', hb', hidx'⟩ := hidx j' hj'
        have harith : k + (j' + 1) = (k + 1) + j' := by omega
        refine ⟨b', ?_, ?_⟩
        · rw [harith]
          exact hb'
        · simp only [List.getElem?_cons_succ, List.get_cons_succ]
          rw [harith]
          exact hidx'

lemma requestLoop_events (respond : Nat → Except TransportError String) (clock : Nat → Int)
    (dumps : Payload → String) (hostname : String) (port : Int) :
    ∀ (infos : List RequestInfo) (k : Nat),
      ∀ ev ∈ (requestLoop respond clock dumps hostname port k infos).1, ev.isIssue = true := by
  intro infos
  induction infos with
  | nil =>
    intro k ev hev
    simp [requestLoop] at hev
  | cons r rs ih =>
    intro k ev hev
    simp only [requestLoop] at hev
    cases hr : respond k with
    | error e =>
      rw [hr] at hev
      simp only [List.mem_singleton] at hev
      subst hev
      cases hd : r.data <;> simp [hd, NetEvent.isIssue]
    | ok b =>
      rw [hr] at hev
      simp only [List.mem_cons] at hev
      rcases hev with hev | hev
      · subst hev
        cases hd : r.data <;> simp [hd, NetEvent.isIssue]
      · exact ih (k + 1) ev hev

lemma request_eq_ok (hostname : String) (port : Int)
    (respond : Nat → Except TransportError String) (clock : Nat → Int)
    (dumps : Payload → String) (infos : List RequestInfo)
    (out : List (String × Int × String))
    (h : (requestLoop respond clock dumps hostname port 0 infos).2 = Except.ok out) :
    RequestPool.request hostname port respond clock dumps
        (PyObj.pyList (infos.map PyObj.reqInfo)) =
      (NetEvent.openConn hostname port ::
          (requestLoop respond clock dumps hostname port 0 infos).1 ++ [NetEvent.closeConn],
        Except.ok out) := by
  simp only [RequestPool.request, extractInfos_map]
  rw [h]

lemma request_eq_error (hostname : String) (port : Int)
    (respond : Nat → Except TransportError String) (clock : Nat → Int)
    (dumps : Payload → String) (infos : List RequestInfo) (e : TransportError)
    (h : (requestLoop respond clock dumps hostname port 0 infos).2 = Except.error e) :
    RequestPool.request hostname port respond clock dumps
        (PyObj.pyList (infos.map PyObj.reqInfo)) =
      (NetEvent.openConn hostname port ::
          (requestLoop respond clock dumps hostname port 0 infos).1,
        Except.error (PyError.transport e)) := by
  simp only [RequestPool.request, extractInfos_map]
  rw [h]

/-- C2: on a valid descriptor list, when every transport round succeeds and
successive `time.time()` readings are nondecreasing, `RequestPool.request`
returns exactly one result tuple per descriptor, in input order: the `i`-th
tuple holds the `i`-th response body as text, the elapsed time
`end - start` of round `i`, which is nonnegative, and the `i`-th descriptor's
endpoint. -/
theorem request_spec (hostname : String) (port : Int)
    (respond : Nat → Except TransportError String) (clock : Nat → Int)
    (dumps : Payload → String) (infos : List RequestInfo)
    (hok : ∀ k, k < infos.length → ∃ b, respond k = Except.ok b)
    (hclock : ∀ i, clock i ≤ clock (i + 1)) :
    ∃ out, (RequestPool.request hostname port respond clock dumps
        (PyObj.pyList (infos.map PyObj.reqInfo))).2 = Except.ok out ∧
      out.length = infos.length ∧
      ∀ (i : Nat) (hi : i < infos.length), ∃ b, respond i = Except.ok b ∧
        out[i]? = some (b, clock (2 * i + 1) - clock (2 * i),
          (infos.get ⟨i, hi⟩).endpoint) ∧
        0 ≤ clock (2 * i + 1) - clock (2 * i) := by
  have hok0 : ∀ j, j < infos.length → ∃ b, respond (0 + j) = Except.ok b := by
    intro j hj
    simpa using hok j hj
  obtain ⟨out, hout, hlen, hidx⟩ :=
    requestLoop_ok respond clock dumps hostname port infos 0 hok0
  refine ⟨out, ?_, hlen, ?_⟩
  · rw [request_eq_ok hostname port respond clock dumps infos out hout]
  · intro i hi
    obtain ⟨b, hb, hidx'⟩ := hidx i hi
    refine ⟨b, by simpa using hb, by simpa using hidx', ?_⟩
    have hcl := hclock (2 * i)
    omega

/-- Witness for C2: a single GET descriptor with a constant oracle. -/
theorem request_spec_witness :
    (∀ k, k < ([RequestInfo.init "/" "GET" none]).length →
      ∃ b, (fun _ : Nat => (Except.ok "body" : Except TransportError String)) k =
        Except.ok b) ∧
    (∀ i : Nat, (fun _ : Nat => (0 : Int)) i ≤ (fun _ : Nat => (0 : Int)) (i + 1)) ∧
    (∃ out, (RequestPool.request "localhost" 8081
        (fun _ : Nat => (Except.ok "body" : Except TransportError String))
        (fun _ : Nat => (0 : Int)) (fun _ : Payload => "")
        (PyObj.pyList (([RequestInfo.init "/" "GET" none]).map PyObj.reqInfo))).2 =
          Except.ok out ∧
      out.length = ([RequestInfo.init "/" "GET" none]).length ∧
      ∀ (i : Nat) (hi : i < ([RequestInfo.init "/" "GET" none]).length),
        ∃ b, (fun _ : Nat => (Except.ok "body" : Except TransportError String)) i =
            Except.ok b ∧
          out[i]? = some (b,
            (fun _ : Nat => (0 : Int)) (2 * i + 1) - (fun _ : Nat => (0 : Int)) (2 * i),
            (([RequestInfo.init "/" "GET" none]).get ⟨i, hi⟩).endpoint) ∧
          0 ≤ (fun _ : Nat => (0 : Int)) (2 * i + 1) -
            (fun _ : Nat => (0 : Int)) (2 * i)) :=
  ⟨fun _ _ => ⟨"body", rfl⟩, fun _ => le_refl 0,
    request_spec "localhost" 8081 (fun _ => Except.ok "body") (fun _ => 0) (fun _ => "")
      [RequestInfo.init "/" "GET" none]
      (fun _ _ => ⟨"body", rfl⟩) (fun _ => le_refl 0)⟩

/-- C4 amended: `request` opens exactly one connection; on a run where the
loop finishes (result delivered), the connection is closed exactly once, as
the final action, including for the empty descriptor list, which produces
open-then-close and an empty result; but when a transport error aborts the
loop, the error propagates and the connection is never closed, because
`conn.close()` is not in a `finally` block. -/
theorem request_lifecycle (hostname : String) (port : Int)
    (respond : Nat → Except TransportError String) (clock : Nat → Int)
    (dumps : Payload → String) (infos : List RequestInfo) :
    ∃ evs res,
      RequestPool.request hostname port respond clock dumps
          (PyObj.pyList (infos.map PyObj.reqInfo)) = (evs, res) ∧
      evs.countP NetEvent.isOpen = 1 ∧
      (∀ out, res = Except.ok out →
        evs.countP NetEvent.isClose = 1 ∧ evs.getLast? = some NetEvent.closeConn) ∧
      (∀ e, res = Except.error e → evs.countP NetEvent.isClose = 0) ∧
      (infos = [] →
        evs = [NetEvent.openConn hostname port, NetEvent.closeConn] ∧
          res = Except.ok []) := by
  have hiss := requestLoop_events respond clock dumps hostname port infos 0
  have hopen0 :
      (requestLoop respond clock dumps hostname port 0 infos).1.countP NetEvent.isOpen = 0 := by
    rw [List.countP_eq_zero]
    intro ev hev
    have h1 := hiss ev hev
    cases ev <;> simp_all [NetEvent.isOpen, NetEvent.isIssue]
  have hclose0 :
      (requestLoop respond clock dumps hostname port 0 infos).1.countP NetEvent.isClose = 0 := by
    rw [List.countP_eq_zero]
    intro ev hev
    have h1 := hiss ev hev
    cases ev <;> simp_all [NetEvent.isClose, NetEvent.isIssue]
  cases h2 : (requestLoop respond clock dumps hostname port 0 infos).2 with
  | error e =>
    refine ⟨_, _, request_eq_error hostname port respond clock dumps infos e h2,
      ?_, ?_, ?_, ?_⟩
    · simp [List.countP_cons, hopen0, NetEvent.isOpen]
    · intro out hout
      simp at hout
    · intro e' he'
      simp [List.countP_cons, hclose0, NetEvent.isClose]
    · intro h0
      subst h0
      simp [requestLoop] at h2
  | ok out =>
    refine ⟨_, _, request_eq_ok hostname port respond clock dumps infos out h2,
      ?_, ?_, ?_, ?_⟩
    · simp [List.countP_cons, List.countP_append, hopen0, NetEvent.isOpen]
    · intro out' hout'
      constructor
      · simp [List.countP_cons, List.countP_append, hclose0, NetEvent.isClose]
      · rw [List.getLast?_concat]
    · intro e' he'
      simp at he'
    · intro h0
      subst h0
      simp only [requestLoop] at h2 ⊢
      constructor
      · simp [requestLoop]
      · have hout : out = [] := by
          simpa using h2.symm
        rw [hout]

/-- C4 counterexample: with a single GET descriptor whose transport round is
refused, `request` propagates the error and the event trace contains no close
of the connection at all — `conn.close()` is skipped, not executed exactly
once. -/
theorem request_error_no_close_counterexample :
    RequestPool.request "localhost" 8081
        (fun _ => Except.error TransportError.connectionRefused) (fun _ => (0 : Int))
        (fun _ => "") (PyObj.pyList [PyObj.reqInfo (RequestInfo.init "/" "GET" none)]) =
      ([NetEvent.openConn "localhost" 8081,
        NetEvent.issue "GET" "/" none (baseHeaders "localhost" 8081)],
       Except.error (PyError.transport TransportError.connectionRefused)) ∧
    List.countP NetEvent.isClose
        [NetEvent.openConn "localhost" 8081,
         NetEvent.issue "GET" "/" none (baseHeaders "localhost" 8081)] = 0 := by
  constructor
  · rfl
  · rfl

/-- Witness for the amended C4 at the empty descriptor list: the connection is
opened then immediately closed and the result is empty. -/
theorem request_lifecycle_witness :
    ∃ evs res,
      RequestPool.request "localhost" 8081
          (fun _ => (Except.ok "body" : Except TransportError String))
          (fun _ => (0 : Int)) (fun _ => "")
          (PyObj.pyList (([] : List RequestInfo).map PyObj.reqInfo)) = (evs, res) ∧
      evs.countP NetEvent.isOpen = 1 ∧
      (∀ out, res = Except.ok out →
        evs.countP NetEvent.isClose = 1 ∧ evs.getLast? = some NetEvent.closeConn) ∧
      (∀ e, res = Except.error e → evs.countP NetEvent.isClose = 0) ∧
      (([] : List RequestInfo) = [] →
        evs = [NetEvent.openConn "localhost" 8081, NetEvent.closeConn] ∧
          res = Except.ok []) :=
  request_lifecycle "localhost" 8081 (fun _ => Except.ok "body") (fun _ => 0)
    (fun _ => "") []

/-- C8 counterexample: for a descriptor with a payload, the issued request
carries the JSON body and the `postHeaders` dict, whose `Connection` value is
`" keep-alive"` (leading space) — not the same value `"keep-alive"` that the
no-payload header dict carries. -/
theorem post_headers_connection_counterexample :
    (RequestPool.request "localhost" 8081
        (fun _ => (Except.ok "r" : Except TransportError String)) (fun _ => (0 : Int))
        (fun _ => "x")
        (PyObj.pyList [PyObj.reqInfo (RequestInfo.init "/" "POST" (some [("a", "b")]))])).1 =
      [NetEvent.openConn "localhost" 8081,
       NetEvent.issue "POST" "/" (some "x") (postHeaders "localhost" 8081 1),
       NetEvent.closeConn] ∧
    hdrVal (postHeaders "localhost" 8081 1) "Connection" = some " keep-alive" ∧
    hdrVal (baseHeaders "localhost" 8081) "Connection" = some "keep-alive" ∧
    (some " keep-alive" : Option String) ≠ some "keep-alive" := by
  refine ⟨rfl, rfl, rfl, ?_⟩
  simp

/-- C8 amended: the request issued for a payload-carrying descriptor has the
JSON serialization of the payload as body, a `Content-Length` header equal to
its UTF-8 byte length, a `Content-type: application/json` header (so spelled),
and the same `Host`, `User-Agent` and `Accept` values as the no-payload header
set; its `Connection` value is `" keep-alive"`, which differs from the
no-payload value `"keep-alive"` by a leading space. -/
theorem post_request_headers (hostname : String) (port : Int)
    (respond : Nat → Except TransportError String) (clock : Nat → Int)
    (dumps : Payload → String) (r : RequestInfo) (rs : List RequestInfo)
    (d : Payload) (k : Nat) (hd : r.data = some d) :
    ∃ hs, ((requestLoop respond clock dumps hostname port k (r :: rs)).1).head? =
        some (NetEvent.issue r.method r.endpoint (some (dumps d)) hs) ∧
      hs = postHeaders hostname port (dumps d).utf8ByteSize ∧
      hdrVal hs "Content-Length" = some (toString (dumps d).utf8ByteSize) ∧
      hdrVal hs "Content-type" = some "application/json" ∧
      hdrVal hs "Host" = hdrVal (baseHeaders hostname port) "Host" ∧
      hdrVal hs "User-Agent" = hdrVal (baseHeaders hostname port) "User-Agent" ∧
      hdrVal hs "Accept" = hdrVal (baseHeaders hostname port) "Accept" ∧
      hdrVal hs "Connection" = some " keep-alive" ∧
      hdrVal (baseHeaders hostname port) "Connection" = some "keep-alive" := by
  refine ⟨postHeaders hostname port (dumps d).utf8ByteSize, ?_, rfl, ?_, ?_, ?_, ?_, ?_, ?_, ?_⟩
  · simp only [requestLoop, hd]
    cases hr : respond k <;> simp
  · simp [hdrVal, postHeaders]
  · simp [hdrVal, postHeaders]
  · simp [hdrVal, postHeaders, baseHeaders]
  · simp [hdrVal, postHeaders, baseHeaders]
  · simp [hdrVal, postHeaders, baseHeaders]
  · simp [hdrVal, postHeaders]
  · simp [hdrVal, baseHeaders]

/-- Witness for the amended C8 at a concrete POST descriptor. -/
theorem post_request_headers_witness :
    (RequestInfo.init "/" "post" (some [("a", "b")])).data = some [("a", "b")] ∧
    (∃ hs, ((requestLoop (fun _ => (Except.ok "r" : Except TransportError String))
          (fun _ => (0 : Int)) (fun _ => "x") "localhost" 8081 0
          [RequestInfo.init "/" "post" (some [("a", "b")])]).1).head? =
        some (NetEvent.issue (RequestInfo.init "/" "post" (some [("a", "b")])).method
          (RequestInfo.init "/" "post" (some [("a", "b")])).endpoint
          (some ((fun _ => "x") [("a", "b")])) hs) ∧
      hs = postHeaders "localhost" 8081 (((fun _ => "x") [("a", "b")] : String)).utf8ByteSize ∧
      hdrVal hs "Content-Length" =
        some (toString (((fun _ => "x") [("a", "b")] : String)).utf8ByteSize) ∧
      hdrVal hs "Content-type" = some "application/json" ∧
      hdrVal hs "Host" = hdrVal (baseHeaders "localhost" 8081) "Host" ∧
      hdrVal hs "User-Agent" = hdrVal (baseHeaders "localhost" 8081) "User-Agent" ∧
      hdrVal hs "Accept" = hdrVal (baseHeaders "localhost" 8081) "Accept" ∧
      hdrVal hs "Connection" = some " keep-alive" ∧
      hdrVal (baseHeaders "localhost" 8081) "Connection" = some "keep-alive") :=
  ⟨rfl, post_request_headers "localhost" 8081 (fun _ => Except.ok "r") (fun _ => 0)
    (fun _ => "x") (RequestInfo.init "/" "post" (some [("a", "b")])) [] [("a", "b")] 0 rfl⟩

/-- C5 counterexample: passing a sequence of descriptors (here the singleton
list of one GET descriptor) to `single_request` does not await to the batch
result for that partition.  `single_request` wraps its argument in another
list, so the worker runs `request([[d]])`; the element check rejects the inner
list and the awaited value is a `TypeError`, while `batch_request([[d]])`
yields the actual result list for the partition. -/
theorem single_request_list_counterexample :
    RequestPool.single_request
        { pool := ProcessPool.init 2, hostname := "localhost", port := 8081 }
        (fun _ => (Except.ok "res" : Except TransportError String)) (fun _ => (0 : Int))
        (fun _ => "x")
        (PyObj.pyList [PyObj.reqInfo (RequestInfo.init "/" "GET" none)]) =
      Except.ok ([], Except.error (PyError.typeError "Unsupported Type for Input Elements")) ∧
    RequestPool.batch_request
        { pool := ProcessPool.init 2, hostname := "localhost", port := 8081 }
        (fun _ => (Except.ok "res" : Except TransportError String)) (fun _ => (0 : Int))
        (fun _ => "x")
        [PyObj.pyList [PyObj.reqInfo (RequestInfo.init "/" "GET" none)]] =
      Except.ok [([NetEvent.openConn "localhost" 8081,
          NetEvent.issue "GET" "/" none (baseHeaders "localhost" 8081),
          NetEvent.closeConn], Except.ok [("res", (0 : Int), "/")])] ∧
    (([], Except.error (PyError.typeError "Unsupported Type for Input Elements")) :
        List NetEvent × Except PyError (List (String × Int × String))) ≠
      ([NetEvent.openConn "localhost" 8081,
        NetEvent.issue "GET" "/" none (baseHeaders "localhost" 8081),
        NetEvent.closeConn], Except.ok [("res", (0 : Int), "/")]) := by
  refine ⟨rfl, rfl, ?_⟩
  simp

/-- C5 amended: `single_request` accepts one descriptor `d` (not a sequence);
it submits `request` on the singleton list `[d]`, and — when the pool is not
shut down — its awaited value is exactly the single element that
`batch_request` applied to the one-partition input `[[d]]` yields. -/
theorem single_request_equiv (self : RequestPool)
    (respond : Nat → Except TransportError String) (clock : Nat → Int)
    (dumps : Payload → String) (d : RequestInfo)
    (h : self.pool.executor.isShutdown = false) :
    ∃ v, RequestPool.single_request self respond clock dumps (PyObj.reqInfo d) =
        Except.ok v ∧
      RequestPool.batch_request self respond clock dumps
          [PyObj.pyList [PyObj.reqInfo d]] = Except.ok [v] := by
  refine ⟨RequestPool.request self.hostname self.port respond clock dumps
    (PyObj.pyList [PyObj.reqInfo d]), ?_, ?_⟩ <;>
    simp [RequestPool.single_request, RequestPool.batch_request, ProcessPool.single,
      ProcessPool.batch, Executor.submit, Executor.mapFn, h]

/-- Witness for the amended C5 on a fresh pool and a concrete descriptor. -/
theorem single_request_equiv_witness :
    ({ pool := ProcessPool.init 1, hostname := "localhost", port := 8081 } :
        RequestPool).pool.executor.isShutdown = false ∧
    (∃ v, RequestPool.single_request
        { pool := ProcessPool.init 1, hostname := "localhost", port := 8081 }
        (fun _ => (Except.ok "res" : Except TransportError String)) (fun _ => (0 : Int))
        (fun _ => "x") (PyObj.reqInfo (RequestInfo.init "/" "GET" none)) =
          Except.ok v ∧
      RequestPool.batch_request
        { pool := ProcessPool.init 1, hostname := "localhost", port := 8081 }
        (fun _ => (Except.ok "res" : Except TransportError String)) (fun _ => (0 : Int))
        (fun _ => "x") [PyObj.pyList [PyObj.reqInfo (RequestInfo.init "/" "GET" none)]] =
          Except.ok [v]) :=
  ⟨rfl, single_request_equiv
    { pool := ProcessPool.init 1, hostname := "localhost", port := 8081 }
    (fun _ => Except.ok "res") (fun _ => 0) (fun _ => "x")
    (RequestInfo.init "/" "GET" none) rfl⟩

/-- C6 counterexample: constructing a `RequestPool` with the invalid port `0`
does raise the `ValueError`, but only after the worker pool has been created —
the `poolCreated` event precedes the error, contradicting the claim that the
error is raised before any resource is created. -/
theorem requestPool_init_pool_first_counterexample :
    RequestPool.init 2 (PyObj.pyStr "localhost") (PyObj.pyInt 0) =
      ([InitEvent.poolCreated 2],
        Except.error (PyError.valueError "Invalid port number given")) := by
  rfl

/-- C6 amended: `RequestPool.__init__` validates hostname and port exactly
once, at construction: it succeeds precisely when the hostname is a nonempty
string and the port an integer ≥ 1, storing them unchanged, and raises a
`TypeError`/`ValueError` otherwise — but the worker pool is created before the
checks run, so the `poolCreated` event is present in every outcome. -/
theorem requestPool_init_spec (n : Int) (h p : PyObj) :
    (RequestPool.init n h p).1 = [InitEvent.poolCreated n] ∧
    ((∃ st, (RequestPool.init n h p).2 = Except.ok st) ↔
      (∃ s q, h = PyObj.pyStr s ∧ p = PyObj.pyInt q ∧ s ≠ "" ∧ 1 ≤ q)) ∧
    (∀ s q, h = PyObj.pyStr s → p = PyObj.pyInt q → s ≠ "" → 1 ≤ q →
      (RequestPool.init n h p).2 =
        Except.ok { pool := ProcessPool.init n, hostname := s, port := q }) := by
  refine ⟨?_, ?_, ?_⟩
  · cases h <;> cases p <;>
      first
      | rfl
      | (simp only [RequestPool.init]; split_ifs <;> rfl)
  · constructor
    · rintro ⟨st, hst⟩
      cases h <;> cases p
      case pyStr.pyInt s q =>
        simp only [RequestPool.init] at hst
        by_cases h1 : s = ""
        · rw [if_pos h1] at hst
          simp at hst
        · rw [if_neg h1] at hst
          by_cases h2 : q < 1
          · rw [if_pos h2] at hst
            simp at hst
          · exact ⟨s, q, rfl, rfl, h1, by omega⟩
      all_goals simp [RequestPool.init] at hst
    · rintro ⟨s, q, hh, hp, hs, hq⟩
      subst hh
      subst hp
      simp only [RequestPool.init]
      rw [if_neg hs, if_neg (by omega)]
      exact ⟨_, rfl⟩
  · intro s q hh hp hs hq
    subst hh
    subst hp
    simp only [RequestPool.init]
    rw [if_neg hs, if_neg (by omega)]

/-- Witness for the amended C6 at valid concrete arguments. -/
theorem requestPool_init_spec_witness :
    (RequestPool.init 1 (PyObj.pyStr "localhost") (PyObj.pyInt 8081)).1 =
      [InitEvent.poolCreated 1] ∧
    (RequestPool.init 1 (PyObj.pyStr "localhost") (PyObj.pyInt 8081)).2 =
      Except.ok { pool := ProcessPool.init 1, hostname := "localhost", port := 8081 } :=
  ⟨(requestPool_init_spec 1 (PyObj.pyStr "localhost") (PyObj.pyInt 8081)).1,
    (requestPool_init_spec 1 (PyObj.pyStr "localhost") (PyObj.pyInt 8081)).2.2
      "localhost" 8081 rfl rfl (by simp) (by omega)⟩

/-- C9: once a `ProcessPool` has been shut down, every subsequent `single`
(submit) or `batch` (map) call fails with the scheduling `RuntimeError`
surfaced to the caller — work is rejected deterministically, never silently
dropped. -/
theorem pool_rejects_after_shutdown {α β γ δ : Type} (p : ProcessPool) (f : α → β)
    (a : α) (g : γ → δ) (args : List γ) :
    p.shutdown.single f a =
        Except.error (PyError.runtimeError "cannot schedule new futures after shutdown") ∧
      p.shutdown.batch g args =
        Except.error (PyError.runtimeError "cannot schedule new futures after shutdown") := by
  constructor <;> rfl

/-- C3: `RequestInfo.__init__` performs no validation at all.  Evaluating the
constructor at the inputs the repository's own tests require to raise — POST
with no data, GET with data, a method that is neither GET nor POST, and an
empty endpoint — produces fully constructed descriptors with those invalid
field combinations instead of failing. -/
theorem requestInfo_init_no_validation :
    RequestInfo.init "/" "POST" none =
      { endpoint := "/", method := "POST", data := none } ∧
    RequestInfo.init "/" "GET" (some [("a", "b")]) =
      { endpoint := "/", method := "GET", data := some [("a", "b")] } ∧
    RequestInfo.init "/" "help" none =
      { endpoint := "/", method := "HELP", data := none } ∧
    RequestInfo.init "" "GET" none =
      { endpoint := "", method := "GET", data := none } := by
  refine ⟨rfl, rfl, rfl, rfl⟩

/-- C7: `RequestInfo` defines no `__eq__`, so `==` is `object.__eq__`, i.e.
identity: two instances constructed from identical field values (the repo's
own `test_init__expected` comparison) compare unequal even though all three
fields agree. -/
theorem requestInfo_eq_is_identity :
    pyEqRequestInfo { oid := 0, val := RequestInfo.init "a" "GET" none }
        { oid := 1, val := RequestInfo.init "a" "GET" none } = false ∧
    ({ oid := 0, val := RequestInfo.init "a" "GET" none } : RequestInfoObj).val =
      ({ oid := 1, val := RequestInfo.init "a" "GET" none } : RequestInfoObj).val := by
  refine ⟨rfl, rfl⟩
